import Mathlib

/-!
Verification of the ReAct agent loop in agent_demo.py.

This file gives a shallow embedding of the agent demo program: the outbound
message construction and retry logic of call_llm, the inline final-answer /
action extraction of run_agent_loop, the JSON decoding of the action payload,
the tool registry with its single capability add_numbers, the observation
formatting, and the step loop itself.  Strings are modelled as lists of
characters; the network (the requests library) is modelled as an oracle giving
the outcome of each transport attempt; json.loads is modelled by an executable
JSON reader restricted to the integer fragment of JSON numbers (no floats) and
to the common escape sequences, with abbreviated error descriptions — no claim
depends on the parts that are restricted.  Python exceptions are represented
explicitly: the except clause of the dispatch block catches exactly
json.JSONDecodeError, KeyError and ValueError, so a TypeError is modelled as an
uncaught error that escapes the loop.
-/

namespace AgentDemo

/-- Strings of the Python program, modelled as lists of characters. -/
abbrev Str := List Char

/-- ASCII whitespace as matched by Python regular-expression class \s and by
str.strip (the inputs of interest are ASCII). -/
def pyWS (c : Char) : Bool :=
  c = ' ' || c = '\t' || c = '\n' || c = '\r' || c = '\x0b' || c = '\x0c'

/-- Python str.strip(): remove leading and trailing whitespace. -/
def pyStrip (s : Str) : Str :=
  ((s.dropWhile pyWS).reverse.dropWhile pyWS).reverse

/-- Python substring containment, the operator x in y on strings. -/
def containsSub (hay needle : Str) : Bool :=
  match hay with
  | [] => needle.isEmpty
  | _ :: rest => needle.isPrefixOf hay || containsSub rest needle

/-- Everything after the first occurrence of needle:
Python hay.split(needle, 1)[1] when needle occurs in hay. -/
def afterFirst (hay needle : Str) : Str :=
  match hay with
  | [] => []
  | c :: rest =>
    if needle.isPrefixOf (c :: rest) then (c :: rest).drop needle.length
    else afterFirst rest needle

/-- A chat message, role and content (agent_demo.py stores dicts with keys
role and content; the observation role is the literal string tool). -/
structure Msg where
  role : Str
  content : Str
deriving DecidableEq

/-- Lines 47-52 of call_llm, the translation applied to each stored history
message after the first: roles user, assistant and system pass through
unchanged, role tool is re-emitted with role user and the same content, and
any other role is silently skipped. -/
def translateMsg (m : Msg) : Option Msg :=
  if m.role = "user".toList || m.role = "assistant".toList
      || m.role = "system".toList then
    some m
  else if m.role = "tool".toList then
    some ⟨"user".toList, m.content⟩
  else
    none

/-- Lines 40-52 of call_llm: the outbound message list.  The system prompt is
prepended as a system message when it is non-empty (Python truthiness of the
string), and every history message after the first is passed through
translateMsg; the first stored history entry is skipped unconditionally. -/
def buildMessages (systemPrompt : Str) (history : List Msg) : List Msg :=
  (if systemPrompt.isEmpty then [] else [⟨"system".toList, systemPrompt⟩])
    ++ (history.drop 1).filterMap translateMsg

/-- The total function equal to translateMsg on the roles that actually occur
in the loop's history (user, assistant, tool): tool becomes user with the same
content, the others are unchanged. -/
def trMsg (m : Msg) : Msg :=
  if m.role = "tool".toList then ⟨"user".toList, m.content⟩ else m

/-- A decoded JSON value as produced by json.loads, restricted to integer
numbers (the program's claims never involve floats). -/
inductive JVal where
  | jstr (s : Str)
  | jnum (n : Int)
  | jbool (b : Bool)
  | jnull
  | jarr (elems : List JVal)
  | jobj (fields : List (Str × JVal))

/-- Whitespace skipped by json.loads between tokens. -/
def jskip (s : Str) : Str :=
  s.dropWhile (fun c => c = ' ' || c = '\t' || c = '\n' || c = '\r')

/-- Insertion into the field list of a JSON object with Python dict update
semantics: a duplicate key keeps its original position and takes the later
value. -/
def objInsert (fields : List (Str × JVal)) (k : Str) (v : JVal) :
    List (Str × JVal) :=
  match fields with
  | [] => [(k, v)]
  | (k0, v0) :: rest =>
    if k0 = k then (k0, v) :: rest else (k0, v0) :: objInsert rest k v

/-- Python dict lookup d[k] on a decoded JSON object, none when the key is
absent (a KeyError in Python). -/
def objLookup (fields : List (Str × JVal)) (k : Str) : Option JVal :=
  match fields with
  | [] => none
  | (k0, v0) :: rest => if k0 = k then some v0 else objLookup rest k

/-- Reads the body of a JSON string after the opening quote, handling the
common escapes; returns the decoded characters and the input remaining after
the closing quote. -/
def jstringBody : Str → Except Str (Str × Str)
  | [] => .error "Unterminated string".toList
  | c :: rest =>
    if c = '"' then .ok ([], rest)
    else if c = '\\' then
      match rest with
      | [] => .error "Unterminated string".toList
      | e :: rest2 =>
        let dec : Option Char :=
          if e = '"' then some '"'
          else if e = '\\' then some '\\'
          else if e = '/' then some '/'
          else if e = 'n' then some '\n'
          else if e = 't' then some '\t'
          else if e = 'r' then some '\r'
          else if e = 'b' then some '\x08'
          else if e = 'f' then some '\x0c'
          else none
        match dec with
        | some d =>
          match jstringBody rest2 with
          | .ok (cs, r) => .ok (d :: cs, r)
          | .error m => .error m
        | none => .error "Invalid escape".toList
    else
      match jstringBody rest with
      | .ok (cs, r) => .ok (c :: cs, r)
      | .error m => .error m

/-- Splits a leading run of decimal digits from the input. -/
def takeDigits : Str → (Str × Str)
  | [] => ([], [])
  | c :: rest =>
    if c.isDigit then
      let (ds, r) := takeDigits rest
      (c :: ds, r)
    else ([], c :: rest)

/-- Numeric value of a list of decimal digits. -/
def digitsVal (ds : Str) : Nat :=
  ds.foldl (fun acc c => acc * 10 + (c.toNat - '0'.toNat)) 0

/-- Reads a JSON integer literal (an optional minus sign and a digit run with
no redundant leading zero); a fractional part or an exponent is outside the
modelled fragment and is reported as a decode error. -/
def jintFrom (s : Str) : Except Str (Int × Str) :=
  let (neg, s1) : Bool × Str :=
    match s with
    | '-' :: rest => (true, rest)
    | _ => (false, s)
  let (ds, r) := takeDigits s1
  if ds.isEmpty then .error "Expecting value".toList
  else if ds.length > 1 && ds.headI = '0' then .error "Expecting value".toList
  else
    match r with
    | '.' :: _ => .error "Number format outside modelled fragment".toList
    | 'e' :: _ => .error "Number format outside modelled fragment".toList
    | 'E' :: _ => .error "Number format outside modelled fragment".toList
    | _ => .ok (if neg then -(digitsVal ds : Int) else (digitsVal ds : Int), r)

/-- Mode of the JSON reader: a value, the members of an object being read, or
the elements of an array being read. -/
inductive JMode where
  | value
  | members (acc : List (Str × JVal))
  | elems (acc : List JVal)

/-- Fuel-indexed JSON reader modelling json.loads on the fragment described at
jintFrom; every recursive call follows the consumption of at least one input
character, so fuel one beyond the input length suffices. -/
def jparse : Nat → JMode → Str → Except Str (JVal × Str)
  | 0, _, _ => .error "Out of fuel".toList
  | fuel + 1, .value, s =>
    match jskip s with
    | [] => .error "Expecting value".toList
    | c :: rest =>
      if c = 'n' then
        if "ull".toList.isPrefixOf rest then .ok (.jnull, rest.drop 3)
        else .error "Expecting value".toList
      else if c = 't' then
        if "rue".toList.isPrefixOf rest then .ok (.jbool true, rest.drop 3)
        else .error "Expecting value".toList
      else if c = 'f' then
        if "alse".toList.isPrefixOf rest then .ok (.jbool false, rest.drop 4)
        else .error "Expecting value".toList
      else if c = '"' then
        match jstringBody rest with
        | .ok (cs, r) => .ok (.jstr cs, r)
        | .error m => .error m
      else if c = '\x7b' then
        match jskip rest with
        | '\x7d' :: r2 => .ok (.jobj [], r2)
        | _ => jparse fuel (.members []) rest
      else if c = '[' then
        match jskip rest with
        | ']' :: r2 => .ok (.jarr [], r2)
        | _ => jparse fuel (.elems []) rest
      else
        match jintFrom (c :: rest) with
        | .ok (n, r) => .ok (.jnum n, r)
        | .error m => .error m
  | fuel + 1, .members acc, s =>
    match jskip s with
    | '"' :: rest =>
      match jstringBody rest with
      | .error m => .error m
      | .ok (key, afterKey) =>
        match jskip afterKey with
        | ':' :: afterColon =>
          match jparse fuel .value afterColon with
          | .error m => .error m
          | .ok (v, afterVal) =>
            match jskip afterVal with
            | ',' :: more => jparse fuel (.members (objInsert acc key v)) more
            | '\x7d' :: r2 => .ok (.jobj (objInsert acc key v), r2)
            | _ => .error "Expecting delimiter".toList
        | _ => .error "Expecting colon delimiter".toList
    | _ => .error "Expecting property name enclosed in double quotes".toList
  | fuel + 1, .elems acc, s =>
    match jparse fuel .value s with
    | .error m => .error m
    | .ok (v, afterVal) =>
      match jskip afterVal with
      | ',' :: more => jparse fuel (.elems (acc ++ [v])) more
      | ']' :: r2 => .ok (.jarr (acc ++ [v]), r2)
      | _ => .error "Expecting delimiter".toList

/-- json.loads on a whole document: one value followed only by whitespace. -/
def jsonLoads (s : Str) : Except Str JVal :=
  match jparse (s.length + 1) .value s with
  | .error m => .error m
  | .ok (v, rest) =>
    if (jskip rest).isEmpty then .ok v else .error "Extra data".toList

/-- The opening delimiter of an action region. -/
def actionStartMark : Str := "[ACTION_START]".toList

/-- The closing delimiter of an action region. -/
def actionEndMark : Str := "[ACTION_END]".toList

/-- The final-answer marker. -/
def finalMark : Str := "Final Answer:".toList

/-- The non-greedy payload scan of the action regular expression: given the
input just after the opening brace, finds the earliest closing brace that is
followed by optional whitespace and the closing delimiter, returning the
payload characters from the current position through that brace (this is how
the lazy quantifier between the braces behaves, and it is what lets the
payload itself contain nested braces). -/
def findClose : Str → Option (Str × Str)
  | [] => none
  | c :: rest =>
    if c = '\x7d' && actionEndMark.isPrefixOf (rest.dropWhile pyWS) then
      some ([c], rest)
    else
      match findClose rest with
      | some (mid, r) => some (c :: mid, r)
      | none => none

/-- Whether the action pattern of line 132 of agent_demo.py matches starting
exactly at the head of the input; on success returns the captured group: the
brace-delimited payload.  The pattern is the literal opening delimiter,
optional whitespace, a brace-delimited non-greedy payload, optional whitespace
and the literal closing delimiter; with this pattern the regular expression
engine's behaviour is deterministic: each whitespace run is forced to end at
the first non-whitespace character. -/
def matchActionAt (s : Str) : Option Str :=
  if actionStartMark.isPrefixOf s then
    match (s.drop actionStartMark.length).dropWhile pyWS with
    | c :: rest =>
      if c = '\x7b' then
        match findClose rest with
        | some (mid, _) => some ('\x7b' :: mid)
        | none => none
      else none
    | [] => none
  else none

/-- re.search with the action pattern: the match whose start position is
leftmost, scanning candidate start positions left to right. -/
def searchAction : Str → Option Str
  | [] => none
  | c :: rest =>
    match matchActionAt (c :: rest) with
    | some p => some p
    | none => searchAction rest

/-- Result of the inline parse phase of run_agent_loop (lines 125-134): a
final answer, a located action payload, or neither. -/
inductive ParseResult where
  | fans (text : Str)
  | action (payload : Str)
  | ambiguous

/-- The inline parse of run_agent_loop: the final-answer check of line 126
comes first (everything after the first marker occurrence, stripped), then the
regular-expression search for an action region, otherwise ambiguous. -/
def parseModelText (t : Str) : ParseResult :=
  if containsSub t finalMark then
    .fans (pyStrip (afterFirst t finalMark))
  else
    match searchAction t with
    | some p => .action p
    | none => .ambiguous

/-- The Python exceptions that can arise inside the dispatch try block.  The
except clause of line 164 catches json.JSONDecodeError, KeyError and
ValueError; TypeError is not in the clause and therefore escapes. -/
inductive PyErr where
  | jsonDecodeError (msg : Str)
  | keyError (key : Str)
  | valueError (msg : Str)
  | typeError (msg : Str)
deriving DecidableEq

/-- Whether the except clause of line 164 catches the error. -/
def caughtByHandler : PyErr → Bool
  | .typeError _ => false
  | _ => true

/-- Python repr of a string: single-quoted, escaping backslash and the single
quote (the container renderings below never feed a claim; scalars are exact).
-/
def pyReprStr (s : Str) : Str :=
  '\'' :: (s.flatMap fun c =>
    if c = '\\' then ['\\', '\\']
    else if c = '\'' then ['\\', '\''] else [c]) ++ ['\'']

mutual

/-- Size of a decoded JSON value, used to bound recursion depth. -/
def jsize : JVal → Nat
  | .jstr _ => 1
  | .jnum _ => 1
  | .jbool _ => 1
  | .jnull => 1
  | .jarr xs => 1 + jsizeList xs
  | .jobj fs => 1 + jsizeFields fs

/-- Size of a list of decoded JSON values. -/
def jsizeList : List JVal → Nat
  | [] => 0
  | v :: vs => 1 + jsize v + jsizeList vs

/-- Size of the field list of a decoded JSON object. -/
def jsizeFields : List (Str × JVal) → Nat
  | [] => 0
  | (_, v) :: rest => 1 + jsize v + jsizeFields rest

end

/-- Fuel-indexed Python repr of a decoded JSON value; the size of the value
bounds the depth, so jsize fuel is always sufficient. -/
def pyReprFuel : Nat → JVal → Str
  | 0, _ => []
  | fuel + 1, v =>
    match v with
    | .jstr s => pyReprStr s
    | .jnum n => (toString n).toList
    | .jbool b => if b then "True".toList else "False".toList
    | .jnull => "None".toList
    | .jarr xs =>
      '[' :: List.intercalate ", ".toList (xs.map (pyReprFuel fuel)) ++ [']']
    | .jobj fs =>
      '\x7b' :: List.intercalate ", ".toList
        (fs.map fun kv => pyReprStr kv.1 ++ ": ".toList ++ pyReprFuel fuel kv.2)
        ++ ['\x7d']

/-- Python str() of a decoded JSON value as used by f-string interpolation:
strings are rendered bare, numbers in decimal, booleans and None by name, and
containers by their repr. -/
def pyStrOf (v : JVal) : Str :=
  match v with
  | .jstr s => s
  | .jnum n => (toString n).toList
  | .jbool b => if b then "True".toList else "False".toList
  | .jnull => "None".toList
  | .jarr xs => pyReprFuel (jsize (JVal.jarr xs)) (.jarr xs)
  | .jobj fs => pyReprFuel (jsize (JVal.jobj fs)) (.jobj fs)

/-- str() of an exception as interpolated into the observation text: a
ValueError or decode error shows its message, a KeyError shows the repr of the
missing key. -/
def pyErrStr : PyErr → Str
  | .jsonDecodeError m => m
  | .keyError k => pyReprStr k
  | .valueError m => m
  | .typeError m => m

/-- The tool registry of agent_demo.py: AVAILABLE_TOOLS has the single entry
add_numbers. -/
def AVAILABLE_TOOLS : List Str := ["add_numbers".toList]

/-- Python binary + on decoded JSON values, as evaluated inside add_numbers:
numbers add (a boolean counts as its integer value), strings and lists
concatenate, any other combination raises TypeError. -/
def pyAdd (x y : JVal) : Except PyErr JVal :=
  match x, y with
  | .jnum a, .jnum b => .ok (.jnum (a + b))
  | .jnum a, .jbool b => .ok (.jnum (a + (if b then 1 else 0)))
  | .jbool a, .jnum b => .ok (.jnum ((if a then 1 else 0) + b))
  | .jbool a, .jbool b =>
    .ok (.jnum ((if a then 1 else 0) + (if b then 1 else 0)))
  | .jstr a, .jstr b => .ok (.jstr (a ++ b))
  | .jarr a, .jarr b => .ok (.jarr (a ++ b))
  | _, _ => .error (.typeError "unsupported operand type(s) for +".toList)

/-- Invocation of add_numbers with the keyword arguments unpacked from the
decoded args object: the keys must be exactly a and b, otherwise Python raises
TypeError for a missing or unexpected keyword argument. -/
def addNumbersCall (kwargs : List (Str × JVal)) : Except PyErr JVal :=
  match objLookup kwargs "a".toList, objLookup kwargs "b".toList with
  | some a, some b =>
    if kwargs.length = 2 then pyAdd a b
    else .error
      (.typeError "add_numbers() got an unexpected keyword argument".toList)
  | _, _ => .error
    (.typeError "add_numbers() missing 1 required positional argument".toList)

/-- The body of the try block of lines 140-152 applied to the captured
payload: decode the payload, index the keys tool and args, test registry
membership (an unhashable tool name raises TypeError at the membership test,
an absent hashable name raises the ValueError of line 149), then invoke the
capability with the args unpacked as keyword arguments (a non-mapping args
value raises TypeError). -/
def tryDispatch (payload : Str) : Except PyErr JVal :=
  match jsonLoads payload with
  | .error m => .error (.jsonDecodeError m)
  | .ok d =>
    match d with
    | .jobj fields =>
      match objLookup fields "tool".toList with
      | none => .error (.keyError "tool".toList)
      | some tv =>
        match objLookup fields "args".toList with
        | none => .error (.keyError "args".toList)
        | some av =>
          match tv with
          | .jobj _ => .error (.typeError "unhashable type: dict".toList)
          | .jarr _ => .error (.typeError "unhashable type: list".toList)
          | .jstr name =>
            if AVAILABLE_TOOLS.contains name then
              match av with
              | .jobj kwargs => addNumbersCall kwargs
              | _ => .error
                (.typeError "argument after ** must be a mapping".toList)
            else .error (.valueError
              ("Tool ".toList ++ name ++ " not registered.".toList))
          | _ => .error (.valueError
            ("Tool ".toList ++ pyStrOf tv ++ " not registered.".toList))
    | _ => .error (.typeError "value is not subscriptable by a string".toList)

/-- Outcome of one iteration of the loop body of run_agent_loop given the
model text of that step: the function returns (final answer of line 128 or the
ambiguous failure of line 173), the loop proceeds to the next step with an
extended history, or an uncaught exception escapes (carrying the history as
extended before the raise, since the assistant message of line 137 is appended
before the try block). -/
inductive StepOut where
  | finished (ret : Str)
  | nextStep (history : List Msg)
  | failedAmbiguous
  | uncaught (e : PyErr) (history : List Msg)
deriving DecidableEq

/-- One iteration of the loop body of run_agent_loop (lines 125-173) given the
text returned by call_llm and the current history: the final-answer check and
its return string, else on a located action region the assistant message is
appended and the dispatch try block runs, appending the observation (success
or caught error) as a tool-role message, an uncaught TypeError escaping; with
no region the ambiguous failure string of line 173 is returned. -/
def stepOutcome (t : Str) (history : List Msg) : StepOut :=
  match parseModelText t with
  | .fans ans =>
    .finished ("\n✅ Agent Finished! Final Answer: ".toList ++ ans)
  | .action payload =>
    let h1 := history ++ [⟨"assistant".toList, t⟩]
    match tryDispatch payload with
    | .ok v =>
      .nextStep (h1 ++ [⟨"tool".toList, "Observation: ".toList ++ pyStrOf v⟩])
    | .error e =>
      if caughtByHandler e then
        .nextStep (h1 ++ [⟨"tool".toList,
          "Observation: Tool Execution Error: ".toList ++ pyErrStr e⟩])
      else .uncaught e h1
  | .ambiguous => .failedAmbiguous

/-- Outcome of one transport attempt of the requests library, as seen by
call_llm: a successful response with well-formed body text, a successful
response whose body lacks the expected fields (the KeyError or IndexError of
line 101), or a requests.exceptions.RequestException (connection error,
timeout, or the non-2xx raise of line 81). -/
inductive NetOutcome where
  | ok (content : Str)
  | okMalformed (emsg : Str)
  | reqError (emsg : Str)
deriving DecidableEq

/-- What one call of call_llm produced: the returned text, the number of
transport attempts made, and the backoff delays slept between attempts. -/
structure CallStats where
  text : Str
  attempts : Nat
  delays : List Nat
deriving DecidableEq

/-- The retry loop of call_llm (lines 70-106) from a given attempt index, with
fuel counting the remaining iterations of range(max_retries): a well-formed
success returns the stripped content; a malformed response returns its error
string immediately without retrying; a transport failure on the last attempt
(index maxRetries - 1) returns the error string of line 94, and otherwise
sleeps 2 to the power of the attempt index and retries.  The fall-through
return of line 106 is reached only when the range is empty. -/
def callLLMFrom (net : Nat → NetOutcome) (maxRetries : Nat) :
    Nat → Nat → CallStats
  | _, 0 => ⟨"Error: Maximum retry attempts exceeded.".toList, 0, []⟩
  | attempt, fuel + 1 =>
    match net attempt with
    | .ok content => ⟨pyStrip content, 1, []⟩
    | .okMalformed e =>
      ⟨"Error: Failed to parse API response: ".toList ++ e, 1, []⟩
    | .reqError e =>
      if attempt = maxRetries - 1 then
        ⟨"Error: API request failed (attempt ".toList
          ++ (toString (attempt + 1)).toList ++ "/".toList
          ++ (toString maxRetries).toList ++ "): ".toList ++ e, 1, []⟩
      else
        let rest := callLLMFrom net maxRetries (attempt + 1) fuel
        ⟨rest.text, rest.attempts + 1, 2 ^ attempt :: rest.delays⟩

/-- call_llm's retry behaviour over a transport oracle: attempts start at
index 0 and range(max_retries) provides maxRetries iterations. -/
def callLLM (net : Nat → NetOutcome) (maxRetries : Nat) : CallStats :=
  callLLMFrom net maxRetries 0 maxRetries

/-- How a run ended: the string returned by run_agent_loop, or a Python
exception that escaped the loop. -/
inductive RunResult where
  | returned (s : Str)
  | raised (e : PyErr)
deriving DecidableEq

/-- A finished run: its result, the number of call_llm invocations, the total
number of transport attempts, and the final history. -/
structure RunStats where
  result : RunResult
  llmCalls : Nat
  netAttempts : Nat
  finalHistory : List Msg
deriving DecidableEq

/-- The for loop of run_agent_loop (lines 118-175) with fuel counting the
remaining iterations of range(max_steps).  The transport oracle is indexed by
the call_llm invocation number and then by the attempt number within that
invocation; calls and attempts accumulate the respective counters.  When the
fuel runs out the function returns the budget-exhausted string of line 175. -/
def runLoopAux (net : Nat → Nat → NetOutcome) (maxRetries : Nat) :
    Nat → List Msg → Nat → Nat → RunStats
  | 0, history, calls, attempts =>
    ⟨.returned "❌ Max steps reached without a final answer.".toList,
      calls, attempts, history⟩
  | fuel + 1, history, calls, attempts =>
    let c := callLLM (net calls) maxRetries
    match stepOutcome c.text history with
    | .finished r => ⟨.returned r, calls + 1, attempts + c.attempts, history⟩
    | .failedAmbiguous =>
      ⟨.returned
          "❌ Agent failed to produce a valid action or final answer.".toList,
        calls + 1, attempts + c.attempts, history⟩
    | .nextStep h2 =>
      runLoopAux net maxRetries fuel h2 (calls + 1) (attempts + c.attempts)
    | .uncaught e h1 => ⟨.raised e, calls + 1, attempts + c.attempts, h1⟩

/-- run_agent_loop (lines 109-175): seed the history with the system prompt
and the initial user prompt, then run up to maxSteps iterations.  The API key
check of call_llm is environmental and outside the model: the oracle model
corresponds to a run with the key configured. -/
def run_agent_loop (net : Nat → Nat → NetOutcome)
    (initialUserPrompt systemPrompt : Str) (maxSteps maxRetries : Nat) :
    RunStats :=
  runLoopAux net maxRetries maxSteps
    [⟨"system".toList, systemPrompt⟩, ⟨"user".toList, initialUserPrompt⟩] 0 0

/-! ## Concrete model outputs used by the witnesses -/

/-- A model text holding a well-formed add_numbers action (the shape shown in
the system prompt of agent_demo.py), with nested braces in the payload. -/
def c9text : Str :=
  ("[ACTION_START]\n\x7b\"tool\": \"add_numbers\", \"args\": \x7b\"a\": 123, \"b\": 456\x7d\x7d\n[ACTION_END]").toList

/-- The payload the action pattern captures from c9text. -/
def c9payload : Str :=
  ("\x7b\"tool\": \"add_numbers\", \"args\": \x7b\"a\": 123, \"b\": 456\x7d\x7d").toList

/-- A seeded two-message history (system prompt and initial user task). -/
def demoHistory : List Msg :=
  [⟨"system".toList, "You are a calculator agent.".toList⟩,
    ⟨"user".toList, "Add 123 and 456.".toList⟩]

/-- A model text holding both an action region and, after it, the final-answer
marker. -/
def c2text : Str :=
  ("[ACTION_START]\x7b\"tool\": \"add_numbers\", \"args\": \x7b\x7d\x7d[ACTION_END] Final Answer: 42 ").toList

/-- A model text whose action region encloses a payload that is not valid
JSON. -/
def c3text : Str := ("[ACTION_START]\x7boops\x7d[ACTION_END]").toList

/-- The payload the action pattern captures from c3text. -/
def c3payload : Str := ("\x7boops\x7d").toList

/-- A model text whose well-formed action payload names the registered tool
but supplies only the keyword argument a, so that invoking
add_numbers(**args) raises TypeError for the missing argument b. -/
def c4text : Str :=
  ("[ACTION_START]\x7b\"tool\": \"add_numbers\", \"args\": \x7b\"a\": 1\x7d\x7d[ACTION_END]").toList

/-- A model text whose well-formed action payload names a tool that is not in
the registry. -/
def c7text : Str :=
  ("[ACTION_START]\x7b\"tool\": \"multiply\", \"args\": \x7b\x7d\x7d[ACTION_END]").toList

/-- The payload the action pattern captures from c7text. -/
def c7payload : Str :=
  ("\x7b\"tool\": \"multiply\", \"args\": \x7b\x7d\x7d").toList

/-- The decoded fields of c7payload. -/
def c7fields : List (Str × JVal) :=
  [("tool".toList, .jstr "multiply".toList), ("args".toList, .jobj [])]

/-- A model text with neither the final-answer marker nor an action region. -/
def c8text : Str := ("I think the answer is 579.").toList

/-! ## Helper lemmas -/

theorem translateMsg_user (c : Str) :
    translateMsg ⟨"user".toList, c⟩ = some ⟨"user".toList, c⟩ := rfl

theorem translateMsg_assistant (c : Str) :
    translateMsg ⟨"assistant".toList, c⟩ = some ⟨"assistant".toList, c⟩ := rfl

theorem translateMsg_tool (c : Str) :
    translateMsg ⟨"tool".toList, c⟩ = some ⟨"user".toList, c⟩ := rfl

theorem filterMap_translateMsg_eq (rest : List Msg)
    (hroles : ∀ m ∈ rest, m.role = "user".toList ∨ m.role = "assistant".toList
      ∨ m.role = "tool".toList) :
    rest.filterMap translateMsg = rest.map trMsg := by
  induction rest with
  | nil => rfl
  | cons m ms ih =>
    have hm := hroles m (by simp)
    have hms := fun x hx => hroles x (List.mem_cons_of_mem m hx)
    obtain ⟨r, c⟩ := m
    simp only [Msg.mk.injEq] at hm
    rcases hm with h | h | h <;>
      (subst h; simp only [List.filterMap_cons, List.map_cons];
        rw [ih hms]; rfl)

theorem trMsg_role (m : Msg)
    (h : m.role = "user".toList ∨ m.role = "assistant".toList
      ∨ m.role = "tool".toList) :
    (trMsg m).role = "user".toList ∨ (trMsg m).role = "assistant".toList := by
  obtain ⟨r, c⟩ := m
  rcases h with h | h | h
  · subst h; exact Or.inl rfl
  · subst h; exact Or.inr rfl
  · subst h; exact Or.inl rfl

theorem trMsg_content (m : Msg) : (trMsg m).content = m.content := by
  obtain ⟨r, c⟩ := m
  unfold trMsg
  split <;> rfl

/-! ## Claims about the outbound message list -/

/-- C1: for every history satisfying the invariant (one system message stored
first, every later message of role user, assistant or observation) and every
non-empty system prompt, the outbound list built by call_llm is the supplied
system prompt as the unique system-role message followed by the translation of
the remaining history in order: user- and assistant-role messages are passed
through unchanged, no tool-role (observation) entry remains, and each tool-role
history message reappears as a user-role message with the same content. -/
theorem c1_outbound_list (sp : Str) (m0 : Msg) (rest : List Msg)
    (hsys : m0.role = "system".toList) (hsp : sp ≠ [])
    (hroles : ∀ m ∈ rest, m.role = "user".toList ∨ m.role = "assistant".toList
      ∨ m.role = "tool".toList) :
    buildMessages sp (m0 :: rest) = ⟨"system".toList, sp⟩ :: rest.map trMsg
    ∧ (∀ m ∈ rest.map trMsg,
        m.role ≠ "system".toList ∧ m.role ≠ "tool".toList)
    ∧ (∀ m ∈ rest,
        (m.role = "user".toList ∨ m.role = "assistant".toList) → trMsg m = m)
    ∧ (∀ m ∈ rest,
        m.role = "tool".toList → trMsg m = ⟨"user".toList, m.content⟩) := by
  have hne : sp.isEmpty = false := by
    cases sp with
    | nil => exact absurd rfl hsp
    | cons c cs => rfl
  refine ⟨?_, ?_, ?_, ?_⟩
  · show (if sp.isEmpty then ([] : List Msg) else [⟨"system".toList, sp⟩])
        ++ ((m0 :: rest).drop 1).filterMap translateMsg = _
    rw [hne]
    show [(⟨"system".toList, sp⟩ : Msg)] ++ rest.filterMap translateMsg = _
    rw [filterMap_translateMsg_eq rest hroles]
    rfl
  · intro m hm
    obtain ⟨x, hx, hxm⟩ := List.mem_map.mp hm
    subst hxm
    rcases trMsg_role x (hroles x hx) with h | h <;>
      (rw [h]; exact ⟨by decide, by decide⟩)
  · intro m hm hrole
    obtain ⟨r, c⟩ := m
    rcases hrole with h | h <;> (subst h; rfl)
  · intro m hm hrole
    obtain ⟨r, c⟩ := m
    subst hrole
    rfl

/-- Witness for C1 on a concrete history with one message of each role. -/
theorem c1_outbound_list_witness :
    buildMessages "be brief".toList
        [⟨"system".toList, "old".toList⟩, ⟨"user".toList, "hi".toList⟩,
          ⟨"assistant".toList, "plan".toList⟩,
          ⟨"tool".toList, "Observation: 579".toList⟩]
      = ⟨"system".toList, "be brief".toList⟩ ::
          [⟨"user".toList, "hi".toList⟩, ⟨"assistant".toList, "plan".toList⟩,
            ⟨"tool".toList, "Observation: 579".toList⟩].map trMsg :=
  (c1_outbound_list "be brief".toList ⟨"system".toList, "old".toList⟩
    [⟨"user".toList, "hi".toList⟩, ⟨"assistant".toList, "plan".toList⟩,
      ⟨"tool".toList, "Observation: 579".toList⟩]
    rfl (by decide) (by decide)).1

/-- C10: call_llm skips the first stored history entry unconditionally — two
histories differing only in their first element yield the same outbound list —
and the outbound list carries a system-role entry only when the supplied
system prompt is non-empty: with an empty prompt (and the roles the loop
actually stores after the first entry) the outbound list is exactly the
translation of the remaining history, contains no system-role entry, and
begins with the translation of the second stored message, whose content it
preserves. -/
theorem c10_first_entry_skipped (sp : Str) (m0 m0' : Msg) (rest : List Msg)
    (hroles : ∀ m ∈ rest, m.role = "user".toList ∨ m.role = "assistant".toList
      ∨ m.role = "tool".toList) :
    buildMessages sp (m0 :: rest) = buildMessages sp (m0' :: rest)
    ∧ (sp = [] →
        buildMessages sp (m0 :: rest) = rest.map trMsg
        ∧ (∀ m ∈ buildMessages sp (m0 :: rest), m.role ≠ "system".toList)
        ∧ (∀ h2 t2, rest = h2 :: t2 →
            (buildMessages sp (m0 :: rest)).head? = some (trMsg h2)
            ∧ (trMsg h2).content = h2.content)) := by
  constructor
  · rfl
  · intro hsp
    subst hsp
    have hmain : buildMessages [] (m0 :: rest) = rest.map trMsg := by
      show (if ([] : Str).isEmpty then ([] : List Msg) else _)
          ++ ((m0 :: rest).drop 1).filterMap translateMsg = _
      show rest.filterMap translateMsg = _
      exact filterMap_translateMsg_eq rest hroles
    refine ⟨hmain, ?_, ?_⟩
    · intro m hm
      rw [hmain] at hm
      obtain ⟨x, hx, hxm⟩ := List.mem_map.mp hm
      subst hxm
      rcases trMsg_role x (hroles x hx) with h | h <;> (rw [h]; decide)
    · intro h2 t2 hr
      subst hr
      rw [hmain]
      exact ⟨rfl, trMsg_content h2⟩

/-- Witness for C10: empty system prompt, differing first entries. -/
theorem c10_first_entry_skipped_witness :
    buildMessages [] [⟨"system".toList, "a".toList⟩,
        ⟨"tool".toList, "Observation: 1".toList⟩]
      = buildMessages [] [⟨"ignored".toList, "b".toList⟩,
          ⟨"tool".toList, "Observation: 1".toList⟩]
    ∧ buildMessages [] [⟨"system".toList, "a".toList⟩,
        ⟨"tool".toList, "Observation: 1".toList⟩]
      = [⟨"tool".toList, "Observation: 1".toList⟩].map trMsg :=
  ⟨(c10_first_entry_skipped [] ⟨"system".toList, "a".toList⟩
      ⟨"ignored".toList, "b".toList⟩
      [⟨"tool".toList, "Observation: 1".toList⟩] (by decide)).1,
    ((c10_first_entry_skipped [] ⟨"system".toList, "a".toList⟩
      ⟨"ignored".toList, "b".toList⟩
      [⟨"tool".toList, "Observation: 1".toList⟩] (by decide)).2 rfl).1⟩

/-! ## Claims about parsing and the step transition -/

/-- C2: a model text containing the final-answer marker is classified as a
final answer carrying everything after the first occurrence of the marker,
trimmed — unconditionally, hence even when an action-delimited region also
appears, since the final-answer check of line 126 precedes the action search
of line 132 — and on such a text the loop returns at once with that answer,
appending nothing further to history. -/
theorem c2_final_answer (t : Str) (history : List Msg)
    (h : containsSub t finalMark = true) :
    parseModelText t = .fans (pyStrip (afterFirst t finalMark))
    ∧ stepOutcome t history = .finished
        ("\n✅ Agent Finished! Final Answer: ".toList
          ++ pyStrip (afterFirst t finalMark))
    ∧ (∀ (net : Nat → Nat → NetOutcome) (maxRetries fuel calls attempts : Nat),
        (callLLM (net calls) maxRetries).text = t →
        runLoopAux net maxRetries (fuel + 1) history calls attempts
          = ⟨.returned ("\n✅ Agent Finished! Final Answer: ".toList
                ++ pyStrip (afterFirst t finalMark)),
              calls + 1, attempts + (callLLM (net calls) maxRetries).attempts,
              history⟩) := by
  have hp : parseModelText t = .fans (pyStrip (afterFirst t finalMark)) := by
    unfold parseModelText
    rw [if_pos h]
  have hs : stepOutcome t history = .finished
      ("\n✅ Agent Finished! Final Answer: ".toList
        ++ pyStrip (afterFirst t finalMark)) := by
    unfold stepOutcome
    rw [hp]
  refine ⟨hp, hs, ?_⟩
  intro net maxRetries fuel calls attempts htext
  simp only [runLoopAux]
  rw [htext, hs]

/-- Witness for C2 on a text where an action region precedes the marker. -/
theorem c2_final_answer_witness :
    containsSub c2text finalMark = true
    ∧ searchAction c2text
        = some ("\x7b\"tool\": \"add_numbers\", \"args\": \x7b\x7d\x7d").toList
    ∧ stepOutcome c2text demoHistory = .finished
        ("\n✅ Agent Finished! Final Answer: ".toList
          ++ pyStrip (afterFirst c2text finalMark))
    ∧ pyStrip (afterFirst c2text finalMark) = "42".toList :=
  ⟨by decide, rfl, (c2_final_answer c2text demoHistory (by decide)).2.1,
    by decide⟩

/-- C8: a model text with neither marker parses as ambiguous, and the run
returns the failure string at once: one call_llm invocation was made for this
step, no further step is attempted, and the model call is not retried. -/
theorem c8_ambiguous_terminal (t : Str) (history : List Msg)
    (hnf : containsSub t finalMark = false)
    (hact : searchAction t = none) :
    parseModelText t = .ambiguous
    ∧ stepOutcome t history = .failedAmbiguous
    ∧ (∀ (net : Nat → Nat → NetOutcome) (maxRetries fuel calls attempts : Nat),
        (callLLM (net calls) maxRetries).text = t →
        runLoopAux net maxRetries (fuel + 1) history calls attempts
          = ⟨.returned
                "❌ Agent failed to produce a valid action or final answer.".toList,
              calls + 1, attempts + (callLLM (net calls) maxRetries).attempts,
              history⟩) := by
  have hp : parseModelText t = .ambiguous := by
    unfold parseModelText
    rw [if_neg (by rw [hnf]; exact Bool.false_ne_true), hact]
  have hs : stepOutcome t history = .failedAmbiguous := by
    unfold stepOutcome
    rw [hp]
  refine ⟨hp, hs, ?_⟩
  intro net maxRetries fuel calls attempts htext
  simp only [runLoopAux]
  rw [htext, hs]

/-- Witness for C8 on plain prose. -/
theorem c8_ambiguous_terminal_witness :
    parseModelText c8text = .ambiguous
    ∧ stepOutcome c8text demoHistory = .failedAmbiguous :=
  ⟨(c8_ambiguous_terminal c8text demoHistory (by decide) (by decide)).1,
    (c8_ambiguous_terminal c8text demoHistory (by decide) (by decide)).2.1⟩

/-- C3: when an action region is located but its payload fails to decode or
decodes to an object missing the key tool or the key args, the step is not
ambiguous and not terminal: the error is caught (json.JSONDecodeError or
KeyError are both in the except clause), an observation of the form
Observation: Tool Execution Error: followed by a description is appended after
the assistant message, and the loop continues with the next step. -/
theorem c3_malformed_action (t p : Str) (history : List Msg)
    (hnf : containsSub t finalMark = false)
    (hact : searchAction t = some p)
    (hbad : (∃ m, jsonLoads p = .error m)
      ∨ (∃ fs, jsonLoads p = .ok (.jobj fs)
          ∧ (objLookup fs "tool".toList = none
            ∨ objLookup fs "args".toList = none))) :
    ∃ desc,
      stepOutcome t history = .nextStep (history
        ++ [⟨"assistant".toList, t⟩,
            ⟨"tool".toList,
              "Observation: Tool Execution Error: ".toList ++ desc⟩])
      ∧ stepOutcome t history ≠ .failedAmbiguous
      ∧ (∀ r, stepOutcome t history ≠ .finished r)
      ∧ (∀ (net : Nat → Nat → NetOutcome)
            (maxRetries fuel calls attempts : Nat),
          (callLLM (net calls) maxRetries).text = t →
          runLoopAux net maxRetries (fuel + 1) history calls attempts
            = runLoopAux net maxRetries fuel
                (history ++ [⟨"assistant".toList, t⟩,
                  ⟨"tool".toList,
                    "Observation: Tool Execution Error: ".toList ++ desc⟩])
                (calls + 1)
                (attempts + (callLLM (net calls) maxRetries).attempts)) := by
  have hp : parseModelText t = .action p := by
    unfold parseModelText
    rw [if_neg (by rw [hnf]; exact Bool.false_ne_true), hact]
  have herr : ∃ e, tryDispatch p = .error e ∧ caughtByHandler e = true := by
    rcases hbad with ⟨m, hm⟩ | ⟨fs, hok, hmiss⟩
    · refine ⟨.jsonDecodeError m, ?_, rfl⟩
      unfold tryDispatch
      rw [hm]
    · rcases hlt : objLookup fs "tool".toList with _ | tv
      · refine ⟨.keyError "tool".toList, ?_, rfl⟩
        unfold tryDispatch
        rw [hok]
        dsimp only
        rw [hlt]
      · rcases hmiss with hmiss | hmiss
        · rw [hlt] at hmiss; cases hmiss
        · refine ⟨.keyError "args".toList, ?_, rfl⟩
          unfold tryDispatch
          rw [hok]
          dsimp only
          rw [hlt]
          dsimp only
          rw [hmiss]
  obtain ⟨e, he, hc⟩ := herr
  have hs : stepOutcome t history = .nextStep (history
      ++ [⟨"assistant".toList, t⟩,
          ⟨"tool".toList,
            "Observation: Tool Execution Error: ".toList ++ pyErrStr e⟩]) := by
    unfold stepOutcome
    rw [hp]
    dsimp only
    rw [he]
    dsimp only
    rw [if_pos hc, List.append_assoc]
    rfl
  refine ⟨pyErrStr e, hs,
    by rw [hs]; exact fun hco => StepOut.noConfusion hco,
    fun r => by rw [hs]; exact fun hco => StepOut.noConfusion hco, ?_⟩
  intro net maxRetries fuel calls attempts htext
  simp only [runLoopAux]
  rw [htext, hs]

/-- Witness for C3 on a payload that is not valid JSON. -/
theorem c3_malformed_action_witness :
    ∃ desc,
      stepOutcome c3text demoHistory = .nextStep (demoHistory
        ++ [⟨"assistant".toList, c3text⟩,
            ⟨"tool".toList,
              "Observation: Tool Execution Error: ".toList ++ desc⟩])
      ∧ stepOutcome c3text demoHistory ≠ .failedAmbiguous := by
  obtain ⟨desc, h1, h2, _, _⟩ :=
    c3_malformed_action c3text c3payload demoHistory (by decide) rfl
      (Or.inl ⟨"Expecting property name enclosed in double quotes".toList,
        rfl⟩)
  exact ⟨desc, h1, h2⟩

/-- C7: a located, well-decoded action naming a tool absent from the registry
appends an observation beginning with Observation: Tool Execution Error: (the
ValueError of line 149 is caught), does not terminate the run, and sends the
loop into the next step, consuming one unit of fuel. -/
theorem c7_unregistered_tool (t p name : Str) (fields : List (Str × JVal))
    (av : JVal) (history : List Msg)
    (hnf : containsSub t finalMark = false)
    (hact : searchAction t = some p)
    (hjson : jsonLoads p = .ok (.jobj fields))
    (htool : objLookup fields "tool".toList = some (.jstr name))
    (hargs : objLookup fields "args".toList = some av)
    (hnot : AVAILABLE_TOOLS.contains name = false) :
    stepOutcome t history = .nextStep (history
      ++ [⟨"assistant".toList, t⟩,
          ⟨"tool".toList,
            "Observation: Tool Execution Error: Tool ".toList ++ name
              ++ " not registered.".toList⟩])
    ∧ ("Observation: Tool Execution Error:".toList).isPrefixOf
        ("Observation: Tool Execution Error: Tool ".toList ++ name
          ++ " not registered.".toList) = true
    ∧ (∀ (net : Nat → Nat → NetOutcome) (maxRetries fuel calls attempts : Nat),
        (callLLM (net calls) maxRetries).text = t →
        runLoopAux net maxRetries (fuel + 1) history calls attempts
          = runLoopAux net maxRetries fuel
              (history ++ [⟨"assistant".toList, t⟩,
                ⟨"tool".toList,
                  "Observation: Tool Execution Error: Tool ".toList ++ name
                    ++ " not registered.".toList⟩])
              (calls + 1)
              (attempts + (callLLM (net calls) maxRetries).attempts)) := by
  have hp : parseModelText t = .action p := by
    unfold parseModelText
    rw [if_neg (by rw [hnf]; exact Bool.false_ne_true), hact]
  have he : tryDispatch p = .error (.valueError
      ("Tool ".toList ++ name ++ " not registered.".toList)) := by
    unfold tryDispatch
    rw [hjson]
    dsimp only
    rw [htool]
    dsimp only
    rw [hargs]
    dsimp only
    rw [if_neg (by rw [hnot]; exact Bool.false_ne_true)]
  have hs : stepOutcome t history = .nextStep (history
      ++ [⟨"assistant".toList, t⟩,
          ⟨"tool".toList,
            "Observation: Tool Execution Error: Tool ".toList ++ name
              ++ " not registered.".toList⟩]) := by
    unfold stepOutcome
    rw [hp]
    dsimp only
    rw [he]
    dsimp only
    simp only [caughtByHandler, eq_self_iff_true, if_true]
    rw [List.append_assoc]
    rfl
  refine ⟨hs, ?_, ?_⟩
  · rfl
  · intro net maxRetries fuel calls attempts htext
    simp only [runLoopAux]
    rw [htext, hs]

/-- Witness for C7 on a payload naming the unregistered tool multiply. -/
theorem c7_unregistered_tool_witness :
    stepOutcome c7text demoHistory = .nextStep (demoHistory
      ++ [⟨"assistant".toList, c7text⟩,
          ⟨"tool".toList,
            "Observation: Tool Execution Error: Tool ".toList
              ++ "multiply".toList ++ " not registered.".toList⟩]) :=
  (c7_unregistered_tool c7text c7payload "multiply".toList c7fields
    (.jobj []) demoHistory (by decide) rfl rfl rfl rfl (by decide)).1

/-! ## Claims about the retry policy -/

theorem callLLMFrom_all_transient (net : Nat → NetOutcome) (maxRetries : Nat)
    (htrans : ∀ i, i < maxRetries → ∃ e, net i = .reqError e) :
    ∀ fuel attempt, attempt + fuel = maxRetries →
      (callLLMFrom net maxRetries attempt fuel).attempts = fuel
      ∧ (callLLMFrom net maxRetries attempt fuel).delays
          = (List.range (fuel - 1)).map (fun j => 2 ^ (attempt + j))
      ∧ "Error:".toList.isPrefixOf
          (callLLMFrom net maxRetries attempt fuel).text = true := by
  intro fuel
  induction fuel with
  | zero => intro a ha; exact ⟨rfl, rfl, rfl⟩
  | succ n ih =>
    intro a ha
    obtain ⟨e, he⟩ := htrans a (by omega)
    simp only [callLLMFrom]
    rw [he]
    dsimp only
    by_cases hlast : a = maxRetries - 1
    · rw [if_pos hlast]
      have hn : n = 0 := by omega
      subst hn
      exact ⟨rfl, rfl, rfl⟩
    · rw [if_neg hlast]
      have hr := ih (a + 1) (by omega)
      obtain ⟨m, hm⟩ : ∃ m, n = m + 1 := ⟨n - 1, by omega⟩
      subst hm
      refine ⟨by dsimp only; rw [hr.1], ?_, by dsimp only; exact hr.2.2⟩
      dsimp only
      rw [hr.2.1, Nat.add_sub_cancel, Nat.add_sub_cancel,
        List.range_succ_eq_map, List.map_cons, List.map_map]
      refine congrArg₂ List.cons (by rw [Nat.add_zero])
        (List.map_congr_left ?_)
      intro j hj
      simp only [Function.comp]
      congr 1
      omega

/-- C6: when every transport attempt fails transiently, call_llm makes exactly
maxRetries attempts, the delay slept between attempt i and attempt i + 1 is
2 ^ i (for maxRetries = 3 the delays are 1 then 2, and none after the final
attempt), and the call returns an error string instead of raising; a
structurally malformed successful response instead returns its error string
after a single attempt, with no retry and no delay. -/
theorem c6_retry_and_backoff (net : Nat → NetOutcome) (maxRetries : Nat)
    (htrans : ∀ i, i < maxRetries → ∃ e, net i = .reqError e) :
    (callLLM net maxRetries).attempts = maxRetries
    ∧ (callLLM net maxRetries).delays
        = (List.range (maxRetries - 1)).map (fun i => 2 ^ i)
    ∧ (maxRetries = 3 → (callLLM net maxRetries).delays = [1, 2])
    ∧ "Error:".toList.isPrefixOf (callLLM net maxRetries).text = true
    ∧ (∀ (net2 : Nat → NetOutcome) (r : Nat) (e : Str),
        1 ≤ r → net2 0 = .okMalformed e →
        (callLLM net2 r).attempts = 1
        ∧ (callLLM net2 r).text
            = "Error: Failed to parse API response: ".toList ++ e
        ∧ (callLLM net2 r).delays = []) := by
  have h := callLLMFrom_all_transient net maxRetries htrans maxRetries 0
    (by omega)
  have hd : (callLLM net maxRetries).delays
      = (List.range (maxRetries - 1)).map (fun i => 2 ^ i) := by
    unfold callLLM
    rw [h.2.1]
    exact List.map_congr_left fun j hj => by rw [Nat.zero_add]
  refine ⟨h.1, hd, ?_, h.2.2, ?_⟩
  · intro h3
    subst h3
    rw [hd]
    rfl
  · intro net2 r e h1 hm
    obtain ⟨r', hr'⟩ : ∃ r', r = r' + 1 := ⟨r - 1, by omega⟩
    subst hr'
    unfold callLLM
    simp only [callLLMFrom]
    rw [hm]
    dsimp only
    exact ⟨rfl, rfl, rfl⟩

/-- Witness for C6: an endpoint that always times out, maxRetries = 3. -/
theorem c6_retry_and_backoff_witness :
    (callLLM (fun _ => .reqError "timed out".toList) 3).attempts = 3
    ∧ (callLLM (fun _ => .reqError "timed out".toList) 3).delays = [1, 2] :=
  ⟨(c6_retry_and_backoff (fun _ => .reqError "timed out".toList) 3
      (fun _ _ => ⟨"timed out".toList, rfl⟩)).1,
    (c6_retry_and_backoff (fun _ => .reqError "timed out".toList) 3
      (fun _ _ => ⟨"timed out".toList, rfl⟩)).2.2.1 rfl⟩

/-! ## Claims about error propagation and the step budget -/

theorem caughtByHandler_false (e : PyErr) (h : caughtByHandler e = false) :
    ∃ m, e = .typeError m := by
  cases e with
  | typeError m => exact ⟨m, rfl⟩
  | jsonDecodeError m => simp [caughtByHandler] at h
  | keyError k => simp [caughtByHandler] at h
  | valueError m => simp [caughtByHandler] at h

theorem stepOutcome_uncaught_typeError (t : Str) (history : List Msg)
    (e : PyErr) (h1 : List Msg)
    (h : stepOutcome t history = .uncaught e h1) : ∃ m, e = .typeError m := by
  unfold stepOutcome at h
  rcases hp : parseModelText t with ans | payload | _ <;> rw [hp] at h <;>
    dsimp only at h
  · cases h
  · rcases hd : tryDispatch payload with e2 | v <;> rw [hd] at h <;>
      dsimp only at h
    · by_cases hc : caughtByHandler e2 = true
      · rw [if_pos hc] at h; cases h
      · rw [if_neg hc] at h
        obtain ⟨m, hm⟩ := caughtByHandler_false e2 (by simpa using hc)
        injection h with he hh
        exact ⟨m, he ▸ hm⟩
    · cases h
  · cases h

/-- Counterexample to C4 as stated: with the API key configured and a model
that requests the registered tool but supplies only the keyword argument a,
invoking add_numbers(**args) raises TypeError for the missing argument b;
TypeError is not in the except clause of line 164, so the exception propagates
out of the loop instead of becoming an observation. -/
theorem c4_counterexample_typeerror_escapes :
    (run_agent_loop (fun _ _ => .ok c4text) "Add 1 and 2.".toList
        "You are a calculator agent.".toList 5 3).result
      = .raised (.typeError
          "add_numbers() missing 1 required positional argument".toList) :=
  rfl

/-- C4 amended: for every run that starts, the caller receives either the
single terminal result string or a propagating TypeError (an argument
mismatch when invoking the capability, a non-mapping args value, an
unhashable tool name, or an unsupported operand type inside the capability);
every other dispatch error — unregistered tool, malformed payload, missing
key, ValueError during execution — is caught and converted into an
observation, as witnessed by the fact that no error other than TypeError can
escape. -/
theorem c4_only_typeerror_escapes (net : Nat → Nat → NetOutcome)
    (maxRetries : Nat) :
    ∀ (fuel : Nat) (history : List Msg) (calls attempts : Nat),
      (∃ s, (runLoopAux net maxRetries fuel history calls attempts).result
          = .returned s)
      ∨ (∃ m, (runLoopAux net maxRetries fuel history calls attempts).result
          = .raised (.typeError m)) := by
  intro fuel
  induction fuel with
  | zero => intro history calls attempts; exact Or.inl ⟨_, rfl⟩
  | succ n ih =>
    intro history calls attempts
    simp only [runLoopAux]
    rcases hs : stepOutcome (callLLM (net calls) maxRetries).text history
      with r | h2 | _ | ⟨e, h1⟩ <;> dsimp only
    · exact Or.inl ⟨r, rfl⟩
    · exact ih h2 (calls + 1) _
    · exact Or.inl ⟨_, rfl⟩
    · obtain ⟨m, hm⟩ := stepOutcome_uncaught_typeError _ _ _ _ hs
      exact Or.inr ⟨m, by rw [hm]⟩

theorem callLLMFrom_attempts_le (net : Nat → NetOutcome) (maxRetries : Nat) :
    ∀ fuel attempt, (callLLMFrom net maxRetries attempt fuel).attempts
      ≤ fuel := by
  intro fuel
  induction fuel with
  | zero => intro a; exact Nat.le.refl
  | succ n ih =>
    intro a
    simp only [callLLMFrom]
    rcases hn : net a with c | e | e <;> dsimp only
    · exact Nat.succ_le_succ (Nat.zero_le n)
    · exact Nat.succ_le_succ (Nat.zero_le n)
    · by_cases hl : a = maxRetries - 1
      · rw [if_pos hl]
        exact Nat.succ_le_succ (Nat.zero_le n)
      · rw [if_neg hl]
        dsimp only
        exact Nat.succ_le_succ (ih (a + 1))

theorem runLoopAux_budget (net : Nat → Nat → NetOutcome) (maxRetries : Nat) :
    ∀ (fuel : Nat) (history : List Msg) (calls attempts : Nat),
      (runLoopAux net maxRetries fuel history calls attempts).llmCalls
          ≤ calls + fuel
      ∧ (runLoopAux net maxRetries fuel history calls attempts).netAttempts
          ≤ attempts + fuel * maxRetries := by
  intro fuel
  induction fuel with
  | zero =>
    intro history calls attempts
    simp only [runLoopAux]
    omega
  | succ n ih =>
    intro history calls attempts
    have hca : (callLLM (net calls) maxRetries).attempts ≤ maxRetries :=
      callLLMFrom_attempts_le (net calls) maxRetries maxRetries 0
    have hsm : (n + 1) * maxRetries = n * maxRetries + maxRetries :=
      Nat.succ_mul n maxRetries
    simp only [runLoopAux]
    rcases hs : stepOutcome (callLLM (net calls) maxRetries).text history
      with r | h2 | _ | ⟨e, h1⟩ <;> dsimp only
    · constructor <;> omega
    · have hrec := ih h2 (calls + 1)
        (attempts + (callLLM (net calls) maxRetries).attempts)
      constructor
      · have := hrec.1
        omega
      · have := hrec.2
        omega
    · constructor <;> omega
    · constructor <;> omega

/-- C5: a run makes at most maxSteps cycles (hence at most maxSteps call_llm
invocations) and at most maxSteps * maxRetries transport attempts in total;
concretely, with maxSteps = 1 and a model that always requests a tool, the run
performs exactly one THINKING/DISPATCHING cycle — one model call, the
dispatched observation appended — and returns the budget-exhausted string of
line 175. -/
theorem c5_step_budget (net : Nat → Nat → NetOutcome)
    (initialUserPrompt systemPrompt : Str) (maxSteps maxRetries : Nat) :
    (run_agent_loop net initialUserPrompt systemPrompt maxSteps
        maxRetries).llmCalls ≤ maxSteps
    ∧ (run_agent_loop net initialUserPrompt systemPrompt maxSteps
        maxRetries).netAttempts ≤ maxSteps * maxRetries
    ∧ run_agent_loop (fun _ _ => .ok c9text) "Add 123 and 456.".toList
          "You are a calculator agent.".toList 1 3
        = ⟨.returned "❌ Max steps reached without a final answer.".toList,
            1, 1,
            [⟨"system".toList, "You are a calculator agent.".toList⟩,
              ⟨"user".toList, "Add 123 and 456.".toList⟩,
              ⟨"assistant".toList, c9text⟩,
              ⟨"tool".toList, "Observation: 579".toList⟩]⟩ := by
  refine ⟨?_, ?_, rfl⟩
  · have h := (runLoopAux_budget net maxRetries maxSteps
      [⟨"system".toList, systemPrompt⟩,
        ⟨"user".toList, initialUserPrompt⟩] 0 0).1
    unfold run_agent_loop
    omega
  · have h := (runLoopAux_budget net maxRetries maxSteps
      [⟨"system".toList, systemPrompt⟩,
        ⟨"user".toList, initialUserPrompt⟩] 0 0).2
    unfold run_agent_loop
    omega

/-- C9: the model text carrying the payload with tool add_numbers and args
a = 123, b = 456 (nested braces included) is located by the action pattern
with the full payload captured, the payload decodes to the expected object,
invoking add_numbers with those keyword arguments yields 579, and the step
appends the observation text Observation: 579 to history after the assistant
message. -/
theorem c9_add_numbers_concrete :
    containsSub c9text finalMark = false
    ∧ searchAction c9text = some c9payload
    ∧ jsonLoads c9payload = .ok (.jobj
        [("tool".toList, .jstr "add_numbers".toList),
          ("args".toList, .jobj
            [("a".toList, .jnum 123), ("b".toList, .jnum 456)])])
    ∧ addNumbersCall [("a".toList, .jnum 123), ("b".toList, .jnum 456)]
        = .ok (.jnum 579)
    ∧ stepOutcome c9text demoHistory = .nextStep (demoHistory
        ++ [⟨"assistant".toList, c9text⟩,
            ⟨"tool".toList, "Observation: 579".toList⟩]) :=
  ⟨by decide, rfl, rfl, rfl, rfl⟩

end AgentDemo

